import Mathlib

/-!
Shallow embedding of the database operations module of the
`worldvastra/cost-calc-app` repository (the parameterized query builder /
relational record gateway), together with theorems settling the frozen
claims about it.

The JavaScript source builds SQL statement *strings* with `$n` placeholders
interleaved in the text while pushing the bound values onto a shared
`values` array.  The embedding represents a statement's text as a list of
fragments (`Frag.text` for literal text, `Frag.param n` for an inline `$n`
placeholder), so that both the rendered text and the placeholder appearance
order are recoverable; the bound values are an explicit list.  Statement
execution is external (a PostgreSQL driver), so the operations take the
store's behaviour as an explicit function argument from statements to
either a row list or a coded driver error.
-/

namespace DBOps

/-- A JavaScript scalar value as used by the module (strings, numbers,
booleans are the scalars that appear in field/condition mappings). -/
inductive Scalar where
  | str (s : String)
  | num (n : Int)
  | bool (b : Bool)
deriving DecidableEq, Repr

/-- A JavaScript value occurring in a field mapping or condition set:
`vnull` is the JS `null`, `scalar` a plain scalar, `arr` an array of
scalars (compiled to an IN clause), and `opObj` an object of shape
`{ operator, value }` (compiled to a custom comparison by `getFromDB`). -/
inductive JSVal where
  | vnull
  | scalar (s : Scalar)
  | arr (xs : List Scalar)
  | opObj (operator : String) (value : Scalar)
deriving DecidableEq, Repr

/-- A driver-level error: PostgreSQL errors carry a string `code`;
errors thrown locally by JS code have no code (`none`). -/
structure DriverError where
  code : Option String
  message : String
deriving DecidableEq, Repr

/-- One fragment of a generated statement's text: literal text, or an
inline positional placeholder `$n`. -/
inductive Frag where
  | text (s : String)
  | param (n : Nat)
deriving DecidableEq, Repr

/-- The placeholder numbers occurring in a fragment list, in appearance
order (the `$n` numbers of the generated statement text, left to right). -/
def fragParams : List Frag → List Nat
  | [] => []
  | Frag.text _ :: rest => fragParams rest
  | Frag.param n :: rest => n :: fragParams rest

/-- `Array.prototype.join(sep)` lifted to fragment lists: concatenate the
pieces with a literal-text separator between consecutive pieces. -/
def joinLF (sep : String) : List (List Frag) → List Frag
  | [] => []
  | [x] => x
  | x :: y :: rest => x ++ Frag.text sep :: joinLF sep (y :: rest)

/-- A built statement: the text (as fragments) and the positional value
list passed alongside it to `client.query(query, values)`. -/
structure Statement where
  query : List Frag
  values : List JSVal
deriving DecidableEq, Repr

/-- A result row, a mapping from column name to value. -/
abbrev Row := List (String × JSVal)

/-- The backing store's observable behaviour: executing a statement yields
a row list or raises a coded driver error. -/
abbrev Store := Statement → Except DriverError (List Row)

/-- `handleError` from the source: switch on `error.code`, mapping the four
recognized PostgreSQL codes to fixed messages and anything else to
`"Database operation failed: " ++ error.message`.  It always throws; the
returned string is the message of the error it raises.  (The unused
`context` argument of the source is omitted.) -/
def handleError (operation : String) (error : DriverError) : String :=
  if error.code = some "23505" then "Record with this identifier already exists"
  else if error.code = some "23503" then "Referenced record does not exist"
  else if error.code = some "23502" then "Required field is missing"
  else if error.code = some "42P01" then "Table does not exist"
  else "Database operation failed: " ++ error.message

/-- JS truthiness of an optional number (`if (limit)` in the source):
`null`/absent and `0` are falsy, every other number is truthy. -/
def truthyInt : Option Int → Bool
  | none => false
  | some n => n != 0

/-- The `options` object of `getFromDB`, with the same recognized fields. -/
structure QueryOptions where
  columns : String
  orderBy : Option String
  limit : Option Int
  offset : Option Int
  operator : String
deriving DecidableEq, Repr

/-- The defaults destructured at the top of `getFromDB`:
`columns = "*", orderBy = null, limit = null, offset = null,
operator = "AND"`. -/
def defaultOptions : QueryOptions := ⟨"*", none, none, none, "AND"⟩

/-- One iteration of the WHERE-building loop of `getFromDB`, at running
parameter counter `paramCount`.  Returns the clause fragments, the values
pushed, and the updated counter.  Branch order follows the source:
`null` check, `Array.isArray`, object-with-truthy-`operator`, else
plain equality. -/
def getWhereStep (key : String) (value : JSVal) (paramCount : Nat) :
    List Frag × List JSVal × Nat :=
  match value with
  | JSVal.vnull => ([Frag.text (key ++ " IS NULL")], [], paramCount)
  | JSVal.arr xs =>
      ([Frag.text (key ++ " IN (")]
         ++ joinLF ", " ((List.range' paramCount xs.length).map fun n => [Frag.param n])
         ++ [Frag.text ")"],
       xs.map JSVal.scalar, paramCount + xs.length)
  | JSVal.opObj op v =>
      if op ≠ "" then
        ([Frag.text (key ++ " " ++ op ++ " "), Frag.param paramCount],
         [JSVal.scalar v], paramCount + 1)
      else
        ([Frag.text (key ++ " = "), Frag.param paramCount],
         [JSVal.opObj op v], paramCount + 1)
  | JSVal.scalar s =>
      ([Frag.text (key ++ " = "), Frag.param paramCount],
       [JSVal.scalar s], paramCount + 1)

/-- One iteration of the WHERE-building loop of `updateInDB` /
`deleteFromDB`: same as `getWhereStep` but with no custom-operator branch —
any non-null non-array value falls into the equality branch and is pushed
as-is (`values.push(value)`). -/
def mutWhereStep (key : String) (value : JSVal) (paramCount : Nat) :
    List Frag × List JSVal × Nat :=
  match value with
  | JSVal.vnull => ([Frag.text (key ++ " IS NULL")], [], paramCount)
  | JSVal.arr xs =>
      ([Frag.text (key ++ " IN (")]
         ++ joinLF ", " ((List.range' paramCount xs.length).map fun n => [Frag.param n])
         ++ [Frag.text ")"],
       xs.map JSVal.scalar, paramCount + xs.length)
  | v => ([Frag.text (key ++ " = "), Frag.param paramCount], [v], paramCount + 1)

/-- One iteration of the SET-building loop of `updateInDB`:
`setClause.push(key = $n); values.push(value)`. -/
def setStep (key : String) (value : JSVal) (paramCount : Nat) :
    List Frag × List JSVal × Nat :=
  ([Frag.text (key ++ " = "), Frag.param paramCount], [value], paramCount + 1)

/-- The common shape of the source's `for (const [key, value] of
Object.entries(...))` loops: run `step` on each entry, threading the
running parameter counter and accumulating the clause list and the pushed
values in order. -/
def condLoop (step : String → JSVal → Nat → List Frag × List JSVal × Nat) :
    List (String × JSVal) → Nat → List (List Frag) × List JSVal × Nat
  | [], c => ([], [], c)
  | (k, v) :: rest, c =>
      let s := step k v c
      let r := condLoop step rest s.2.2
      (s.1 :: r.1, s.2.1 ++ r.2.1, r.2.2)

/-- The statement built by `addToDB`: columns are the data's keys, values
its values, placeholders `$1 .. $n` by position
(`columns.map((_, index) => $(index+1))`). -/
def buildInsert (table : String) (data : List (String × JSVal))
    (returnFields : String) : Statement :=
  ⟨[Frag.text ("INSERT INTO " ++ table ++ " ("
       ++ String.intercalate ", " (data.map Prod.fst) ++ ") VALUES (")]
     ++ joinLF ", " ((List.range' 1 (data.map Prod.fst).length).map fun n => [Frag.param n])
     ++ [Frag.text (") RETURNING " ++ returnFields ++ ";")],
   data.map Prod.snd⟩

/-- The statement built by `getFromDB`: `SELECT columns FROM table`,
a WHERE clause (conditions joined with the `operator` option) when the
condition set is non-empty, `ORDER BY` verbatim when given, then `LIMIT`
and `OFFSET` — each appended, with its value as a trailing parameter under
the shared running counter, only when JS-truthy. -/
def buildSelect (table : String) (conditions : List (String × JSVal))
    (options : QueryOptions) : Statement :=
  let base : List Frag := [Frag.text ("SELECT " ++ options.columns ++ " FROM " ++ table)]
  let w := condLoop getWhereStep conditions 1
  let q1 : List Frag :=
    if conditions.length > 0 then
      base ++ Frag.text " WHERE " :: joinLF (" " ++ options.operator ++ " ") w.1
    else base
  let q2 : List Frag :=
    match options.orderBy with
    | some ob => q1 ++ [Frag.text (" ORDER BY " ++ ob)]
    | none => q1
  let l : List Frag × List JSVal × Nat :=
    if truthyInt options.limit then
      (q2 ++ [Frag.text " LIMIT ", Frag.param w.2.2],
       w.2.1 ++ [JSVal.scalar (Scalar.num (options.limit.getD 0))], w.2.2 + 1)
    else (q2, w.2.1, w.2.2)
  let o : List Frag × List JSVal × Nat :=
    if truthyInt options.offset then
      (l.1 ++ [Frag.text " OFFSET ", Frag.param l.2.2],
       l.2.1 ++ [JSVal.scalar (Scalar.num (options.offset.getD 0))], l.2.2 + 1)
    else l
  ⟨o.1, o.2.1⟩

/-- The statement built by `updateInDB` (after its two guards pass): SET
clause parameters first in field order, WHERE parameters next in condition
order, AND-joined, one shared running counter across both clauses. -/
def buildUpdate (table : String) (data conditions : List (String × JSVal))
    (returnFields : String) : Statement :=
  let s := condLoop setStep data 1
  let w := condLoop mutWhereStep conditions s.2.2
  ⟨[Frag.text ("UPDATE " ++ table ++ " SET ")]
     ++ joinLF ", " s.1
     ++ Frag.text " WHERE " :: joinLF " AND " w.1
     ++ [Frag.text (" RETURNING " ++ returnFields ++ ";")],
   s.2.1 ++ w.2.1⟩

/-- The statement built by `deleteFromDB` (after its guard passes):
AND-joined WHERE clause, counter starting at 1. -/
def buildDelete (table : String) (conditions : List (String × JSVal))
    (returnFields : String) : Statement :=
  let w := condLoop mutWhereStep conditions 1
  ⟨[Frag.text ("DELETE FROM " ++ table ++ " WHERE ")]
     ++ joinLF " AND " w.1
     ++ [Frag.text (" RETURNING " ++ returnFields ++ ";")],
   w.2.1⟩

/-- `addToDB`: build and execute the INSERT; a driver error is rethrown
through `handleError`; a zero-row result throws locally
("Insert operation failed - no record returned") which the same catch
block also routes through `handleError` (the thrown JS `Error` has no
`code`, hence the default branch); otherwise return the first row. -/
def addToDB (store : Store) (table : String) (data : List (String × JSVal))
    (returnFields : String) : Except String Row :=
  match store (buildInsert table data returnFields) with
  | Except.error e => Except.error (handleError "addToDB" e)
  | Except.ok rows =>
      match rows with
      | [] => Except.error (handleError "addToDB"
                ⟨none, "Insert operation failed - no record returned"⟩)
      | r :: _ => Except.ok r

/-- `getFromDB`: build and execute the SELECT; a driver error is rethrown
through `handleError`; otherwise return the rows as-is (possibly empty). -/
def getFromDB (store : Store) (table : String)
    (conditions : List (String × JSVal)) (options : QueryOptions) :
    Except String (List Row) :=
  match store (buildSelect table conditions options) with
  | Except.error e => Except.error (handleError "getFromDB" e)
  | Except.ok rows => Except.ok rows

/-- `updateInDB`: guard empty conditions first, then empty data — both
throw locally inside the try block, so the catch routes them through
`handleError`'s default branch.  Then build and execute; a zero-row result
throws "No records found matching the update conditions" (also routed
through `handleError`); otherwise return the rows. -/
def updateInDB (store : Store) (table : String)
    (data conditions : List (String × JSVal)) (returnFields : String) :
    Except String (List Row) :=
  if conditions.length = 0 then
    Except.error (handleError "updateInDB"
      ⟨none, "Update conditions are required to prevent updating all records"⟩)
  else if data.length = 0 then
    Except.error (handleError "updateInDB" ⟨none, "No data provided for update"⟩)
  else
    match store (buildUpdate table data conditions returnFields) with
    | Except.error e => Except.error (handleError "updateInDB" e)
    | Except.ok rows =>
        if rows.length = 0 then
          Except.error (handleError "updateInDB"
            ⟨none, "No records found matching the update conditions"⟩)
        else Except.ok rows

/-- `deleteFromDB`: guard empty conditions (routed through `handleError`
like the update guards), then build and execute; the rows are returned
as-is — an empty result is not an error. -/
def deleteFromDB (store : Store) (table : String)
    (conditions : List (String × JSVal)) (returnFields : String) :
    Except String (List Row) :=
  if conditions.length = 0 then
    Except.error (handleError "deleteFromDB"
      ⟨none, "Delete conditions are required to prevent deleting all records"⟩)
  else
    match store (buildDelete table conditions returnFields) with
    | Except.error e => Except.error (handleError "deleteFromDB" e)
    | Except.ok rows => Except.ok rows

/-- The value returned by `testConnection` (pool statistics omitted). -/
structure ConnectionStatus where
  connected : Bool
  currentTime : Option String
  version : Option String
  error : Option String
deriving DecidableEq, Repr

/-- `testConnection`: the whole body is wrapped in try/catch; its input is
the outcome of connecting and running
`SELECT NOW() as current_time, version() as version` (a time/version pair
or a driver error).  On success it reports `connected: true` with the
diagnostics; on any failure it returns — never raises —
`connected: false` with the error message captured in the value. -/
def testConnection (outcome : Except DriverError (String × String)) :
    ConnectionStatus :=
  match outcome with
  | Except.ok tv => ⟨true, some tv.1, some tv.2, none⟩
  | Except.error e => ⟨false, none, none, some e.message⟩

/-- The names bound by the source's `module.exports` object, in order. -/
def moduleExports : List String := ["addToDB", "getFromDB", "updateInDB"]

/-! ### Helper lemmas: placeholder bookkeeping -/

@[simp] theorem fragParams_nil : fragParams [] = [] := rfl

@[simp] theorem fragParams_text_cons (s : String) (l : List Frag) :
    fragParams (Frag.text s :: l) = fragParams l := rfl

@[simp] theorem fragParams_param_cons (n : Nat) (l : List Frag) :
    fragParams (Frag.param n :: l) = n :: fragParams l := rfl

@[simp] theorem fragParams_append (a b : List Frag) :
    fragParams (a ++ b) = fragParams a ++ fragParams b := by
  induction a with
  | nil => rfl
  | cons f rest ih => cases f <;> simp [ih]

theorem fragParams_joinLF (sep : String) (ls : List (List Frag)) :
    fragParams (joinLF sep ls) = (ls.map fragParams).flatten := by
  induction ls with
  | nil => rfl
  | cons x rest ih =>
      cases rest with
      | nil => simp [joinLF]
      | cons y t =>
          simp only [joinLF, List.map_cons, List.flatten_cons]
          rw [fragParams_append, fragParams_text_cons, ih]
          simp [List.flatten_cons]

theorem fragParams_join_placeholders (sep : String) (ns : List Nat) :
    fragParams (joinLF sep (ns.map fun n => [Frag.param n])) = ns := by
  rw [fragParams_joinLF]
  induction ns with
  | nil => rfl
  | cons n rest ih => simp only [List.map_cons, List.flatten_cons, ih]; rfl

theorem range'_snoc (s n : Nat) :
    List.range' s n ++ [s + n] = List.range' s (n + 1) := by
  have h := List.range'_append_1 s n 1
  simpa [Nat.add_comm] using h

theorem range'_snoc2 (s n : Nat) :
    List.range' s n ++ [s + n, s + n + 1] = List.range' s (n + 1 + 1) := by
  have : [s + n, s + n + 1] = [s + n] ++ [s + (n + 1)] := by
    simp [Nat.add_assoc]
  rw [this, ← List.append_assoc, range'_snoc, range'_snoc]

@[simp] theorem truthyInt_none : truthyInt none = false := rfl

@[simp] theorem truthyInt_some (n : Int) : truthyInt (some n) = (n != 0) := rfl

/-- A compilation step is *sequential* when, started at counter `c`, the
clause it emits carries exactly the placeholders `c, c+1, …` — one per
value it pushes, in order — and it advances the counter by the number of
values pushed. -/
def StepSeq (step : String → JSVal → Nat → List Frag × List JSVal × Nat) : Prop :=
  ∀ k v c, fragParams (step k v c).1 = List.range' c (step k v c).2.1.length ∧
    (step k v c).2.2 = c + (step k v c).2.1.length

theorem getWhereStep_seq : StepSeq getWhereStep := by
  intro k v c
  cases v with
  | vnull => simp [getWhereStep]
  | arr xs => simp [getWhereStep, fragParams_join_placeholders]
  | opObj op val =>
      by_cases hop : op ≠ "" <;> simp [getWhereStep, hop, List.range'_succ]
  | scalar s => simp [getWhereStep, List.range'_succ]

theorem mutWhereStep_seq : StepSeq mutWhereStep := by
  intro k v c
  cases v with
  | vnull => simp [mutWhereStep]
  | arr xs => simp [mutWhereStep, fragParams_join_placeholders]
  | opObj op val => simp [mutWhereStep, List.range'_succ]
  | scalar s => simp [mutWhereStep, List.range'_succ]

theorem setStep_seq : StepSeq setStep := by
  intro k v c
  simp [setStep, List.range'_succ]

/-- The loop invariant of the shared running counter: starting the loop at
counter `c`, the clauses it emits carry — joined in order — exactly the
placeholders `c, c+1, …, c + (#values pushed) - 1`, and the counter comes
out advanced by the number of values pushed. -/
theorem condLoop_spec (step : String → JSVal → Nat → List Frag × List JSVal × Nat)
    (hs : StepSeq step) :
    ∀ (conds : List (String × JSVal)) (c : Nat),
      ((condLoop step conds c).1.map fragParams).flatten
          = List.range' c (condLoop step conds c).2.1.length ∧
        (condLoop step conds c).2.2 = c + (condLoop step conds c).2.1.length := by
  intro conds
  induction conds with
  | nil => intro c; simp [condLoop]
  | cons kv rest ih =>
      intro c
      obtain ⟨k, v⟩ := kv
      have h1 := hs k v c
      have h2 := ih (step k v c).2.2
      simp only [condLoop, List.map_cons, List.flatten_cons, List.length_append]
      constructor
      · rw [h1.1, h2.1, h1.2, List.range'_append_1]
        congr 1
        omega
      · rw [h2.2, h1.2]
        omega

/-! ### Placeholder sequences of the four builders -/

theorem buildInsert_params (t : String) (data : List (String × JSVal)) (rf : String) :
    fragParams (buildInsert t data rf).query
      = List.range' 1 (buildInsert t data rf).values.length := by
  simp [buildInsert, fragParams_join_placeholders]

theorem buildSelect_params (t : String) (conds : List (String × JSVal))
    (opts : QueryOptions) :
    fragParams (buildSelect t conds opts).query
      = List.range' 1 (buildSelect t conds opts).values.length := by
  have hw := condLoop_spec getWhereStep getWhereStep_seq conds 1
  simp only [buildSelect]
  set w := condLoop getWhereStep conds 1 with hwdef
  have hq1 : fragParams
      (if conds.length > 0 then
        [Frag.text ("SELECT " ++ opts.columns ++ " FROM " ++ t)]
          ++ Frag.text " WHERE " :: joinLF (" " ++ opts.operator ++ " ") w.1
       else [Frag.text ("SELECT " ++ opts.columns ++ " FROM " ++ t)])
      = List.range' 1 w.2.1.length := by
    by_cases hc : conds.length > 0
    · simp only [if_pos hc]
      rw [fragParams_append]
      simp only [fragParams_text_cons, fragParams_nil, List.nil_append]
      rw [fragParams_joinLF, hw.1]
    · have hnil : conds = [] := by
        cases conds with
        | nil => rfl
        | cons a l => simp at hc
      subst hnil
      simp [hwdef, condLoop]
  by_cases hl : truthyInt opts.limit = true <;>
    by_cases ho : truthyInt opts.offset = true <;>
    cases hob : opts.orderBy <;>
    simp only [hl, ho, hob, if_true, if_false, Bool.false_eq_true,
      fragParams_append, fragParams_text_cons, fragParams_param_cons,
      fragParams_nil, List.append_nil, List.nil_append, List.append_assoc,
      List.length_append, List.length_cons, List.length_nil, hq1, hw.2]
  all_goals
    first
    | rfl
    | rw [range'_snoc]
    | (rw [← List.append_assoc, range'_snoc, Nat.add_assoc 1 w.2.1.length 1,
         range'_snoc]
       try congr 1
       try omega)

theorem buildUpdate_params (t : String) (data conds : List (String × JSVal))
    (rf : String) :
    fragParams (buildUpdate t data conds rf).query
      = List.range' 1 (buildUpdate t data conds rf).values.length := by
  have hset := condLoop_spec setStep setStep_seq data 1
  have hw := condLoop_spec mutWhereStep mutWhereStep_seq conds
    (condLoop setStep data 1).2.2
  simp only [buildUpdate, fragParams_append, fragParams_text_cons,
    fragParams_param_cons, fragParams_nil, List.append_nil, List.nil_append,
    List.length_append]
  rw [fragParams_joinLF, fragParams_joinLF, hset.1, hw.1, hset.2,
    List.range'_append_1]
  congr 1
  omega

theorem buildDelete_params (t : String) (conds : List (String × JSVal))
    (rf : String) :
    fragParams (buildDelete t conds rf).query
      = List.range' 1 (buildDelete t conds rf).values.length := by
  have hw := condLoop_spec mutWhereStep mutWhereStep_seq conds 1
  simp only [buildDelete, fragParams_append, fragParams_text_cons,
    fragParams_param_cons, fragParams_nil, List.append_nil, List.nil_append]
  rw [fragParams_joinLF, hw.1]

/-! ### Claims -/

/-- C1: For every statement built by insert (non-empty fields), find,
update, or delete, a single running parameter counter is shared across all
clauses (SET, WHERE, LIMIT, OFFSET), so that the placeholder numbers in the
generated statement text, read in appearance order, are exactly
`1, 2, …, k` where `k` is the length of the positional value list: strictly
increasing from `$1`, no number reused, as many placeholders as values, and
the Nth placeholder in appearance order is `$N`, which positional binding
ties to the Nth entry of the value list. -/
theorem claim_C1_shared_counter_sequential :
    (∀ (t : String) (data : List (String × JSVal)) (rf : String), data ≠ [] →
       fragParams (buildInsert t data rf).query
         = List.range' 1 (buildInsert t data rf).values.length) ∧
    (∀ (t : String) (conds : List (String × JSVal)) (opts : QueryOptions),
       fragParams (buildSelect t conds opts).query
         = List.range' 1 (buildSelect t conds opts).values.length) ∧
    (∀ (t : String) (data conds : List (String × JSVal)) (rf : String),
       data ≠ [] → conds ≠ [] →
       fragParams (buildUpdate t data conds rf).query
         = List.range' 1 (buildUpdate t data conds rf).values.length) ∧
    (∀ (t : String) (conds : List (String × JSVal)) (rf : String), conds ≠ [] →
       fragParams (buildDelete t conds rf).query
         = List.range' 1 (buildDelete t conds rf).values.length) :=
  ⟨fun t data rf _ => buildInsert_params t data rf,
   buildSelect_params,
   fun t data conds rf _ _ => buildUpdate_params t data conds rf,
   fun t conds rf _ => buildDelete_params t conds rf⟩

/-- C1 witness: the four parts of `claim_C1_shared_counter_sequential`
applied at concrete statements. -/
theorem claim_C1_shared_counter_sequential_witness :
    fragParams (buildInsert "sampling_designs"
        [("design_id", JSVal.scalar (Scalar.str "D001")),
         ("client", JSVal.scalar (Scalar.str "John"))] "*").query
      = List.range' 1 (buildInsert "sampling_designs"
        [("design_id", JSVal.scalar (Scalar.str "D001")),
         ("client", JSVal.scalar (Scalar.str "John"))] "*").values.length ∧
    fragParams (buildUpdate "sampling_designs"
        [("approved", JSVal.scalar (Scalar.str "Yes"))]
        [("design_id", JSVal.scalar (Scalar.str "D001"))] "*").query
      = List.range' 1 (buildUpdate "sampling_designs"
        [("approved", JSVal.scalar (Scalar.str "Yes"))]
        [("design_id", JSVal.scalar (Scalar.str "D001"))] "*").values.length ∧
    fragParams (buildDelete "sampling_designs"
        [("design_id", JSVal.scalar (Scalar.str "D001"))] "*").query
      = List.range' 1 (buildDelete "sampling_designs"
        [("design_id", JSVal.scalar (Scalar.str "D001"))] "*").values.length :=
  ⟨claim_C1_shared_counter_sequential.1 _ _ _ (by decide),
   claim_C1_shared_counter_sequential.2.2.1 _ _ _ _ (by decide) (by decide),
   claim_C1_shared_counter_sequential.2.2.2 _ _ _ (by decide)⟩

/-- C2: for every store, table, field mapping and return-field string,
`updateInDB` with an empty condition set fails with the unscoped-mutation
guard error ("Update conditions are required to prevent updating all
records", wrapped by `handleError`'s default branch), regardless of the
field mapping's contents, and `deleteFromDB` with an empty condition set
fails with the same kind of guard error.  Both equalities hold for *every*
store and the right-hand sides do not mention the store, so neither
operation ever executes a statement in that case. -/
theorem claim_C2_unscoped_mutation_guard (store : Store) (t : String)
    (data : List (String × JSVal)) (rf : String) :
    updateInDB store t data [] rf =
      Except.error
        "Database operation failed: Update conditions are required to prevent updating all records" ∧
    deleteFromDB store t [] rf =
      Except.error
        "Database operation failed: Delete conditions are required to prevent deleting all records" := by
  exact ⟨rfl, rfl⟩

/-- C3: for every non-empty condition set (and non-empty update data) under
which the store reports zero affected rows, `updateInDB` fails with the
no-match error ("No records found matching the update conditions", wrapped
by `handleError`'s default branch), while `deleteFromDB` under the same
condition set returns the empty sequence without failing. -/
theorem claim_C3_zero_row_asymmetry (store : Store) (t : String)
    (data conds : List (String × JSVal)) (rf : String)
    (hconds : conds ≠ []) (hdata : data ≠ [])
    (hupd : store (buildUpdate t data conds rf) = Except.ok [])
    (hdel : store (buildDelete t conds rf) = Except.ok []) :
    updateInDB store t data conds rf =
      Except.error
        "Database operation failed: No records found matching the update conditions" ∧
    deleteFromDB store t conds rf = Except.ok [] := by
  have hc : ¬conds.length = 0 := by simpa [List.length_eq_zero] using hconds
  have hd : ¬data.length = 0 := by simpa [List.length_eq_zero] using hdata
  constructor
  · simp [updateInDB, hc, hd, hupd, handleError]
  · simp [deleteFromDB, hc, hdel]

/-- C3 witness: `claim_C3_zero_row_asymmetry` at a concrete store that
returns zero rows for every statement. -/
theorem claim_C3_zero_row_asymmetry_witness :
    updateInDB (fun _ => Except.ok []) "sampling_designs"
        [("approved", JSVal.scalar (Scalar.str "Yes"))]
        [("design_id", JSVal.scalar (Scalar.str "D404"))] "*" =
      Except.error
        "Database operation failed: No records found matching the update conditions" ∧
    deleteFromDB (fun _ => Except.ok []) "sampling_designs"
        [("design_id", JSVal.scalar (Scalar.str "D404"))] "*" = Except.ok [] :=
  claim_C3_zero_row_asymmetry _ _ _ _ _ (by decide) (by decide) rfl rfl

/-- C4 counterexample: the claim says insert with an empty field mapping
"is invalid and signals ValidationError", i.e. it fails locally before
execution regardless of the store.  In the source `addToDB` has no
emptiness guard: with empty data it builds `INSERT INTO t () VALUES ()` and
executes it, so against a store that returns a row it *succeeds*. -/
theorem claim_C4_counterexample :
    addToDB (fun _ => Except.ok [[("id", JSVal.scalar (Scalar.num 1))]])
        "sampling_designs" [] "*"
      = Except.ok [("id", JSVal.scalar (Scalar.num 1))] := rfl

/-- C4 amended: insert performs no emptiness validation — with an empty
field mapping it still builds and executes a statement (with zero columns
and zero parameters), and any failure comes from the backing store, not a
local ValidationError.  For all field mappings (in particular all non-empty
ones), insert produces exactly as many positional parameters as fields, in
mapping-iteration order, the placeholders being `$1 .. $n`, so the Nth
placeholder binds the Nth listed field's value. -/
theorem claim_C4_insert_params :
    (∀ (t : String) (data : List (String × JSVal)) (rf : String),
       (buildInsert t data rf).values = data.map Prod.snd ∧
       fragParams (buildInsert t data rf).query
         = List.range' 1 (data.map Prod.snd).length) ∧
    (∀ (t rf : String) (r : Row),
       addToDB (fun _ => Except.ok [r]) t [] rf = Except.ok r) :=
  ⟨fun t data rf => ⟨rfl, buildInsert_params t data rf⟩,
   fun _ _ _ => rfl⟩

/-- C5: `handleError` maps a unique-constraint violation (code 23505) to
the duplicate-record message, a foreign-key violation (23503) to the
dangling-reference message, a not-null violation (23502) to the
missing-field message, relation-not-found (42P01) to the unknown-table
message, and any other error to the generic wrapper around the original
message; and it is applied on every operation's failure path: whenever the
store fails, each of the four operations fails with exactly
`handleError` of the store's error (it raises, never returns a value — in
the embedding the catch branch always produces `Except.error`). -/
theorem claim_C5_error_mapping :
    (∀ op m, handleError op ⟨some "23505", m⟩
        = "Record with this identifier already exists") ∧
    (∀ op m, handleError op ⟨some "23503", m⟩
        = "Referenced record does not exist") ∧
    (∀ op m, handleError op ⟨some "23502", m⟩ = "Required field is missing") ∧
    (∀ op m, handleError op ⟨some "42P01", m⟩ = "Table does not exist") ∧
    (∀ op c m, c ≠ some "23505" → c ≠ some "23503" → c ≠ some "23502" →
       c ≠ some "42P01" →
       handleError op ⟨c, m⟩ = "Database operation failed: " ++ m) ∧
    (∀ (store : Store) t conds opts e,
       store (buildSelect t conds opts) = Except.error e →
       getFromDB store t conds opts
         = Except.error (handleError "getFromDB" e)) ∧
    (∀ (store : Store) t data rf e,
       store (buildInsert t data rf) = Except.error e →
       addToDB store t data rf = Except.error (handleError "addToDB" e)) ∧
    (∀ (store : Store) t data conds rf e, conds ≠ [] → data ≠ [] →
       store (buildUpdate t data conds rf) = Except.error e →
       updateInDB store t data conds rf
         = Except.error (handleError "updateInDB" e)) ∧
    (∀ (store : Store) t conds rf e, conds ≠ [] →
       store (buildDelete t conds rf) = Except.error e →
       deleteFromDB store t conds rf
         = Except.error (handleError "deleteFromDB" e)) := by
  refine ⟨fun op m => rfl, fun op m => rfl, fun op m => rfl, fun op m => rfl,
    ?_, ?_, ?_, ?_, ?_⟩
  · intro op c m h1 h2 h3 h4
    simp [handleError, h1, h2, h3, h4]
  · intro store t conds opts e h
    simp [getFromDB, h]
  · intro store t data rf e h
    simp [addToDB, h]
  · intro store t data conds rf e hconds hdata h
    have hc : ¬conds.length = 0 := by simpa [List.length_eq_zero] using hconds
    have hd : ¬data.length = 0 := by simpa [List.length_eq_zero] using hdata
    simp [updateInDB, hc, hd, h]
  · intro store t conds rf e hconds h
    have hc : ¬conds.length = 0 := by simpa [List.length_eq_zero] using hconds
    simp [deleteFromDB, hc, h]

/-- C5 witness: the default branch of `claim_C5_error_mapping` at a
concrete unrecognized code, and its update-path conjunct at a concrete
failing store. -/
theorem claim_C5_error_mapping_witness :
    handleError "getFromDB" ⟨some "08006", "connection terminated"⟩
        = "Database operation failed: " ++ "connection terminated" ∧
    updateInDB (fun _ => Except.error ⟨some "42P01", "boom"⟩)
        "sampling_designs" [("approved", JSVal.scalar (Scalar.str "Yes"))]
        [("design_id", JSVal.scalar (Scalar.str "D1"))] "*"
      = Except.error (handleError "updateInDB" ⟨some "42P01", "boom"⟩) :=
  ⟨claim_C5_error_mapping.2.2.2.2.1 "getFromDB" (some "08006")
      "connection terminated" (by decide) (by decide) (by decide) (by decide),
   claim_C5_error_mapping.2.2.2.2.2.2.2.1 _ _ _ _ _ _
      (by decide) (by decide) rfl⟩

/-- C6: every error raised locally inside insert or update before or after
statement execution — the empty-condition guard, the empty-update-data
guard, the zero-row update and the zero-row insert — is caught by the
operation's catch block and routed through `handleError`'s default branch
(the thrown JS `Error` has no `code`), so the caller always observes the
generic wrapped message `"Database operation failed: "` followed by the
original local message; all four paths surface the same generic kind, so
the distinct local error kinds are not distinguishable by kind at the
caller. -/
theorem claim_C6_local_errors_rerouted :
    (∀ (store : Store) (t : String) (data : List (String × JSVal)) (rf : String),
       updateInDB store t data [] rf =
         Except.error ("Database operation failed: "
           ++ "Update conditions are required to prevent updating all records")) ∧
    (∀ (store : Store) (t : String) (conds : List (String × JSVal)) (rf : String),
       conds ≠ [] →
       updateInDB store t [] conds rf =
         Except.error ("Database operation failed: "
           ++ "No data provided for update")) ∧
    (∀ (store : Store) (t : String) (data conds : List (String × JSVal)) (rf : String),
       conds ≠ [] → data ≠ [] →
       store (buildUpdate t data conds rf) = Except.ok [] →
       updateInDB store t data conds rf =
         Except.error ("Database operation failed: "
           ++ "No records found matching the update conditions")) ∧
    (∀ (store : Store) (t : String) (data : List (String × JSVal)) (rf : String),
       store (buildInsert t data rf) = Except.ok [] →
       addToDB store t data rf =
         Except.error ("Database operation failed: "
           ++ "Insert operation failed - no record returned")) := by
  refine ⟨fun store t data rf => rfl, ?_, ?_, ?_⟩
  · intro store t conds rf hconds
    have hc : ¬conds.length = 0 := by simpa [List.length_eq_zero] using hconds
    simp [updateInDB, hc, handleError]
  · intro store t data conds rf hconds hdata h
    have hc : ¬conds.length = 0 := by simpa [List.length_eq_zero] using hconds
    have hd : ¬data.length = 0 := by simpa [List.length_eq_zero] using hdata
    simp [updateInDB, hc, hd, h, handleError]
  · intro store t data rf h
    simp [addToDB, h, handleError]

/-- C6 witness: the guarded conjuncts of `claim_C6_local_errors_rerouted`
at concrete inputs (empty-data guard, zero-row update, zero-row insert). -/
theorem claim_C6_local_errors_rerouted_witness :
    updateInDB (fun _ => Except.ok []) "sampling_designs" []
        [("design_id", JSVal.scalar (Scalar.str "D1"))] "*" =
      Except.error ("Database operation failed: "
        ++ "No data provided for update") ∧
    updateInDB (fun _ => Except.ok []) "sampling_designs"
        [("approved", JSVal.scalar (Scalar.str "Yes"))]
        [("design_id", JSVal.scalar (Scalar.str "D1"))] "*" =
      Except.error ("Database operation failed: "
        ++ "No records found matching the update conditions") ∧
    addToDB (fun _ => Except.ok []) "sampling_designs"
        [("design_id", JSVal.scalar (Scalar.str "D1"))] "*" =
      Except.error ("Database operation failed: "
        ++ "Insert operation failed - no record returned") :=
  ⟨claim_C6_local_errors_rerouted.2.1 _ _ _ _ (by decide),
   claim_C6_local_errors_rerouted.2.2.1 _ _ _ _ _ (by decide) (by decide) rfl,
   claim_C6_local_errors_rerouted.2.2.2 _ _ _ _ rfl⟩

/-- C7 counterexample: the claim says the gateway's *public surface*
provides `delete(table, conditions)` and `testConnection()`.  The source's
`module.exports` object binds only `addToDB`, `getFromDB` and `updateInDB`;
neither `deleteFromDB` (nor any `delete`) nor `testConnection` is
exported. -/
theorem claim_C7_counterexample :
    "testConnection" ∉ moduleExports ∧ "delete" ∉ moduleExports ∧
      "deleteFromDB" ∉ moduleExports := by decide

/-- C7 amended: the module *implements* `deleteFromDB(table, conditions)`
returning the deleted row sequence, and `testConnection()`, which never
raises and captures failures into the returned value
(`connected: false` plus the error message); but neither is part of the
public surface — `module.exports` is exactly
`{addToDB, getFromDB, updateInDB}`. -/
theorem claim_C7_surface :
    moduleExports = ["addToDB", "getFromDB", "updateInDB"] ∧
    (∀ outcome, (testConnection outcome).connected = true ∨
       ((testConnection outcome).connected = false ∧
         (testConnection outcome).error ≠ none)) ∧
    (∀ e, testConnection (Except.error e) = ⟨false, none, none, some e.message⟩) ∧
    (∀ (store : Store) (t : String) (conds : List (String × JSVal))
       (rf : String) (rows : List Row), conds ≠ [] →
       store (buildDelete t conds rf) = Except.ok rows →
       deleteFromDB store t conds rf = Except.ok rows) := by
  refine ⟨rfl, ?_, fun e => rfl, ?_⟩
  · intro outcome
    cases outcome with
    | ok tv => left; rfl
    | error e => right; exact ⟨rfl, by simp [testConnection]⟩
  · intro store t conds rf rows hconds h
    have hc : ¬conds.length = 0 := by simpa [List.length_eq_zero] using hconds
    simp [deleteFromDB, hc, h]

/-- C7 witness: the delete conjunct of `claim_C7_surface` at a concrete
store. -/
theorem claim_C7_surface_witness :
    deleteFromDB (fun _ => Except.ok []) "sampling_designs"
        [("design_id", JSVal.scalar (Scalar.str "D9"))] "*" = Except.ok [] :=
  claim_C7_surface.2.2.2 _ _ _ _ _ (by decide) rfl

/-- C8: `getFromDB` with `limit = 10` and `offset = 5` appends exactly two
trailing parameters, `10` then `5`, after all condition parameters
(limit before offset); and in general each of limit and offset is appended
only when a JS-truthy value is supplied (`none` and `0` append nothing). -/
theorem claim_C8_limit_offset_trailing :
    (∀ (t : String) (conds : List (String × JSVal)) (cols : String)
       (ob : Option String) (op : String),
       (buildSelect t conds ⟨cols, ob, some 10, some 5, op⟩).values =
         (buildSelect t conds ⟨cols, ob, none, none, op⟩).values
           ++ [JSVal.scalar (Scalar.num 10), JSVal.scalar (Scalar.num 5)]) ∧
    (∀ (t : String) (conds : List (String × JSVal)) (cols : String)
       (ob : Option String) (op : String) (lim off : Option Int),
       (buildSelect t conds ⟨cols, ob, lim, off, op⟩).values =
         (buildSelect t conds ⟨cols, ob, none, none, op⟩).values
           ++ (if truthyInt lim then [JSVal.scalar (Scalar.num (lim.getD 0))] else [])
           ++ (if truthyInt off then [JSVal.scalar (Scalar.num (off.getD 0))] else [])) := by
  have hgen : ∀ (t : String) (conds : List (String × JSVal)) (cols : String)
      (ob : Option String) (op : String) (lim off : Option Int),
      (buildSelect t conds ⟨cols, ob, lim, off, op⟩).values =
        (buildSelect t conds ⟨cols, ob, none, none, op⟩).values
          ++ (if truthyInt lim then [JSVal.scalar (Scalar.num (lim.getD 0))] else [])
          ++ (if truthyInt off then [JSVal.scalar (Scalar.num (off.getD 0))] else []) := by
    intro t conds cols ob op lim off
    by_cases hl : truthyInt lim = true <;> by_cases ho : truthyInt off = true <;>
      simp [buildSelect, hl, ho]
  exact ⟨fun t conds cols ob op => by
    have h := hgen t conds cols ob op (some 10) (some 5)
    simpa using h,
    hgen⟩

/-- C9: a condition entry mapping a key to the sequence `[v1, v2, v3]`
compiles, at running counter `c`, to a membership clause with exactly three
placeholders `$c, $(c+1), $(c+2)`, consuming three parameter slots
(counter advances to `c + 3`) and appending the three values to the
parameter list in sequence order; in particular a find on
`{id: [1,2,3]}` binds the value list `[1, 2, 3]` to placeholders
`$1, $2, $3`. -/
theorem claim_C9_in_clause_three_placeholders :
    (∀ (key : String) (c : Nat) (v1 v2 v3 : Scalar),
       getWhereStep key (JSVal.arr [v1, v2, v3]) c =
         ([Frag.text (key ++ " IN ("), Frag.param c, Frag.text ", ",
           Frag.param (c + 1), Frag.text ", ", Frag.param (c + 2),
           Frag.text ")"],
          [JSVal.scalar v1, JSVal.scalar v2, JSVal.scalar v3], c + 3)) ∧
    ((buildSelect "sampling_designs"
        [("id", JSVal.arr [Scalar.num 1, Scalar.num 2, Scalar.num 3])]
        defaultOptions).values
        = [JSVal.scalar (Scalar.num 1), JSVal.scalar (Scalar.num 2),
           JSVal.scalar (Scalar.num 3)] ∧
     fragParams (buildSelect "sampling_designs"
        [("id", JSVal.arr [Scalar.num 1, Scalar.num 2, Scalar.num 3])]
        defaultOptions).query = [1, 2, 3]) := by
  refine ⟨?_, by decide, by decide⟩
  intro key c v1 v2 v3
  simp [getWhereStep, joinLF, List.range'_succ]

/-- C10: a condition entry mapping a key to the null marker compiles to an
"IS NULL" clause contributing zero placeholders and zero entries to the
positional parameter list, leaving the running counter unchanged — in both
the find compiler and the update/delete compiler; in particular a find on
`{status: null}` produces an empty value list and a placeholder-free
statement. -/
theorem claim_C10_null_is_null :
    (∀ (key : String) (c : Nat),
       getWhereStep key JSVal.vnull c = ([Frag.text (key ++ " IS NULL")], [], c)) ∧
    (∀ (key : String) (c : Nat),
       mutWhereStep key JSVal.vnull c = ([Frag.text (key ++ " IS NULL")], [], c)) ∧
    ((buildSelect "sampling_designs" [("status", JSVal.vnull)]
        defaultOptions).values = [] ∧
     fragParams (buildSelect "sampling_designs" [("status", JSVal.vnull)]
        defaultOptions).query = []) :=
  ⟨fun key c => rfl, fun key c => rfl, by decide, by decide⟩

end DBOps
